import Mathlib

/-!
# Verification of the OpenClaw → Vibecraft integration layer

Shallow embedding of the event transformation and delivery pipeline from
`src/infra/vibecraft-adapter.ts` (the file imported by
`src/plugins/builtin/vibecraft-plugin.ts`; `src/infra/vibecraft-integration.ts`
duplicates the same logic).

JavaScript dynamic values that the code accesses through `evt.data` are
modelled by `JsValue`; an absent field is `JsValue.undef`, matching the fact
that property access on a plain object returns `undefined` for a missing key
and that the code only ever observes fields through `=== undefined` and
truthiness tests.  The `Map<string, number>` correlation table is modelled as
an insertion-ordered association list with JS `SameValueZero` key equality
(structural equality on our value fragment).
-/

/-- Fragment of JavaScript runtime values that the adapter code inspects.
`obj` carries its entries opaquely (the code never reads inside the payload
objects it forwards; only object-vs-primitive truthiness matters). -/
inductive JsValue where
  | undef
  | str (s : String)
  | num (n : Int)
  | obj (fields : List (String × String))
deriving DecidableEq, Repr

/-- JavaScript truthiness on the modelled fragment: `undefined`, `""` and `0`
are falsy; every object (including `{}`) is truthy. -/
def jsTruthy : JsValue → Bool
  | .undef => false
  | .str s => s ≠ ""
  | .num n => n ≠ 0
  | .obj _ => true

/-- The JavaScript `a || b` operator: `a` when truthy, else `b`. -/
def jsOr (a b : JsValue) : JsValue :=
  if jsTruthy a then a else b

/-- Correlation table `toolUseStartTime : Map<string, number>`
(tool-invocation id → start timestamp, epoch milliseconds). -/
abbrev CorrTable := List (JsValue × Int)

/-- JS `Map.prototype.set`: replace the value at an existing key in place,
otherwise append the new entry. -/
def mapSet : CorrTable → JsValue → Int → CorrTable
  | [], k, v => [(k, v)]
  | (k', v') :: rest, k, v =>
      if k' = k then (k, v) :: rest else (k', v') :: mapSet rest k v

/-- JS `Map.prototype.get`: the value at the key, `undefined` (`none`) if absent. -/
def mapGet : CorrTable → JsValue → Option Int
  | [], _ => none
  | (k', v') :: rest, k => if k' = k then some v' else mapGet rest k

/-- The `AgentEventPayload.data` payload restricted to the fields the adapter reads.
An absent field is `JsValue.undef`. -/
structure AgentEventData where
  phase : JsValue := .undef
  toolName : JsValue := .undef
  toolUseId : JsValue := .undef
  params : JsValue := .undef
  result : JsValue := .undef
  error : JsValue := .undef
  assistantText : JsValue := .undef
deriving DecidableEq, Repr

/-- A source event from the host runtime (`AgentEventPayload`). -/
structure AgentEventPayload where
  runId : String
  sessionKey : Option String := none
  stream : String
  ts : Int
  seq : Int := 0
  data : AgentEventData := {}
deriving DecidableEq, Repr

/-- Adapter configuration (`Required<VibecraftAdapterConfig>` after merging
with the defaults). -/
structure VibecraftAdapterConfig where
  enabled : Bool := false
  serverUrl : String := "http://localhost:4003/event"
  eventsFilePath : String := ""
  cwd : String := "/"
  debug : Bool := false
deriving DecidableEq, Repr

/-- Fields shared by every destination event (`BaseVibecraftEvent`). -/
structure BaseFields where
  id : String
  timestamp : Int
  sessionId : String
  cwd : String
deriving DecidableEq, Repr

/-- The destination (Vibecraft) event union.  Fields the source copies through
a TypeScript type assertion (a runtime no-op) stay `JsValue`. -/
inductive VibecraftEvent where
  | preToolUse (base : BaseFields) (tool : JsValue) (toolInput : JsValue)
      (toolUseId : JsValue) (assistantText : JsValue)
  | postToolUse (base : BaseFields) (tool : JsValue) (toolInput : JsValue)
      (toolResponse : JsValue) (toolUseId : JsValue) (success : Bool)
      (duration : Option Int)
  | stop (base : BaseFields) (stopHookActive : Bool) (response : JsValue)
  | sessionStart (base : BaseFields) (source : String)
  | notification (base : BaseFields) (message : JsValue)
      (notificationType : String)
deriving DecidableEq, Repr

/-- Session id resolution `evt.sessionKey || evt.runId` (line 207). -/
def sessionIdOf (evt : AgentEventPayload) : String :=
  match evt.sessionKey with
  | some s => if s ≠ "" then s else evt.runId
  | none => evt.runId

/-- Tool-use id resolution `evt.data.toolUseId as string || sessionId-seq`
(lines 236 and 248; the type assertion is a runtime no-op, so the `||`
applies JS truthiness to the raw field value). -/
def toolUseIdOf (sessionId : String) (seq : Int) (v : JsValue) : JsValue :=
  jsOr v (.str s!"{sessionId}-{seq}")

/-- The transformer `transformAgentEvent` (vibecraft-adapter.ts lines 206–280), with the
mutation of the module-level `toolUseStartTime` map made explicit: the result
pairs the produced event (or `none`) with the table after the call.
`now` and `rand` stand for the `Date.now()` and `Math.random()` reads inside
`generateEventId`. -/
def transformAgentEvent (config : VibecraftAdapterConfig) (table : CorrTable)
    (evt : AgentEventPayload) (now : Int) (rand : String) :
    Option VibecraftEvent × CorrTable :=
  let sessionId := sessionIdOf evt
  let base : BaseFields :=
    { id := s!"{sessionId}-{now}-{rand}", timestamp := evt.ts,
      sessionId := sessionId, cwd := config.cwd }
  if evt.stream = "lifecycle" then
    if evt.data.phase = .str "start" then
      (some (.sessionStart base "startup"), table)
    else if evt.data.phase = .str "end" then
      (some (.stop base false evt.data.result), table)
    else (none, table)
  else if evt.stream = "tool" then
    if evt.data.phase = .str "pre" then
      let toolUseId := toolUseIdOf sessionId evt.seq evt.data.toolUseId
      let table' := mapSet table toolUseId evt.ts
      (some (.preToolUse base evt.data.toolName (jsOr evt.data.params (.obj []))
        toolUseId evt.data.assistantText), table')
    else if evt.data.phase = .str "post" then
      let toolUseId := toolUseIdOf sessionId evt.seq evt.data.toolUseId
      let startTime := mapGet table toolUseId
      let duration : Option Int :=
        match startTime with
        | some st => if st ≠ 0 then some (evt.ts - st) else none
        | none => none
      (some (.postToolUse base evt.data.toolName (jsOr evt.data.params (.obj []))
        (jsOr evt.data.result (.obj [])) toolUseId
        (evt.data.error = .undef) duration), table)
    else (none, table)
  else if evt.stream = "assistant" then
    (none, table)
  else if evt.stream = "error" then
    (some (.notification base (jsOr evt.data.error (.str "Unknown error"))
      "error"), table)
  else (none, table)

/-- Duration field of a produced event, when it is a ToolPost record. -/
def durationOf : Option VibecraftEvent → Option Int
  | some (.postToolUse _ _ _ _ _ _ d) => d
  | _ => none

/-- Success field of a produced event, when it is a ToolPost record. -/
def successOf : Option VibecraftEvent → Option Bool
  | some (.postToolUse _ _ _ _ _ s _) => some s
  | _ => none

/-!
## Dispatcher

`sendToVibecraft` / `appendToEventsFile` (vibecraft-adapter.ts lines 155–197)
and the fire-and-forget dispatch in the subscription callback (lines 308–315).
The outcome of each I/O primitive is an explicit parameter: `fetch` either
resolves with some HTTP status or rejects (network unreachable, and the
`AbortSignal.timeout(2000)` abort after a 2000 ms hang both surface as a
rejection); `fs.appendFile` either resolves or rejects (unwritable path).
A computation is a list of performed side effects paired with an
`Except`-value; `.error` means the exception escapes to the caller.
-/

/-- Result of the `fetch` call: a resolved response carrying its HTTP status,
or a rejection (connection refused, DNS failure, or the 2000 ms timeout
abort). -/
inductive FetchOutcome where
  | resolved (status : Nat)
  | rejected (err : String)
deriving DecidableEq, Repr

/-- Result of `fs.appendFile`: resolved, or rejected (e.g. unwritable path). -/
inductive FileOutcome where
  | resolved
  | rejected (err : String)
deriving DecidableEq, Repr

/-- Observable side effects of a dispatch. -/
inductive Effect where
  | netPost (url : String)
  | fileAppend (path : String)
deriving DecidableEq, Repr

/-- An effectful step: the effects it performed and whether it threw. -/
abbrev Step := List Effect × Except String Unit

/-- A JS `try { body } catch (err) { …log only… }` / promise `.catch`:
the body's effects are kept, any exception is swallowed. -/
def jsCatch (body : Step) : Step :=
  (body.1, .ok ())

/-- The body of the `try` block in `sendToVibecraft`: one POST to the
configured server; a rejected `fetch` re-throws. A non-2xx status is only
logged (`logError`), not thrown. -/
def fetchStep (config : VibecraftAdapterConfig) (outcome : FetchOutcome) : Step :=
  match outcome with
  | .resolved _status => ([.netPost config.serverUrl], .ok ())
  | .rejected err => ([.netPost config.serverUrl], .error err)

/-- Network delivery `sendToVibecraft` (lines 155–179): returns immediately when the
integration is disabled; otherwise runs the fetch inside `try`/`catch`. -/
def sendToVibecraft (config : VibecraftAdapterConfig)
    (outcome : FetchOutcome) : Step :=
  if !config.enabled then ([], .ok ())
  else jsCatch (fetchStep config outcome)

/-- The body of the `try` block in `appendToEventsFile`: one append to the
configured path; a rejected `appendFile` re-throws. -/
def appendStep (config : VibecraftAdapterConfig) (outcome : FileOutcome) : Step :=
  match outcome with
  | .resolved => ([.fileAppend config.eventsFilePath], .ok ())
  | .rejected err => ([.fileAppend config.eventsFilePath], .error err)

/-- File persistence `appendToEventsFile` (lines 184–197): `if (!config.eventsFilePath) return`
guards only on the path being falsy (the empty string); otherwise the append
runs inside `try`/`catch`. -/
def appendToEventsFile (config : VibecraftAdapterConfig)
    (outcome : FileOutcome) : Step :=
  if config.eventsFilePath = "" then ([], .ok ())
  else jsCatch (appendStep config outcome)

/-- Dispatch of one destination event, as performed by the subscription
callback (lines 312–313): `sendToVibecraft(e).catch(() => {})` and
`appendToEventsFile(e).catch(() => {})`. -/
def dispatchEvent (config : VibecraftAdapterConfig)
    (netOutcome : FetchOutcome) (fileOutcome : FileOutcome) : Step :=
  let s := jsCatch (sendToVibecraft config netOutcome)
  let a := jsCatch (appendToEventsFile config fileOutcome)
  (s.1 ++ a.1,
    match s.2, a.2 with
    | .error e, _ => .error e
    | _, .error e => .error e
    | _, _ => .ok ())

/-!
## Integration lifecycle

`setupVibecraftIntegration` (lines 297–326) / `enableVibecraft`
(vibecraft-integration.ts lines 215–256).  The module-level state is the
`unsubscribeAgentEvents` slot, the host's view of whether the listener is
still registered, and the correlation table.
-/

/-- Module-level state of the integration. `unsubscribeSet` is whether the
`unsubscribeAgentEvents` variable holds a function (vs `null`);
`hostSubscribed` is whether the host event stream still has our listener. -/
structure IntegrationState where
  unsubscribeSet : Bool
  hostSubscribed : Bool
  table : CorrTable
deriving DecidableEq, Repr

/-- The enabled path of `setupVibecraftIntegration`: subscribes to the host
stream and stores the unsubscribe handle. With `enabled = false` the function
returns a no-op before touching any state. -/
def setupVibecraftIntegration (enabled : Bool) (s : IntegrationState) :
    IntegrationState :=
  if !enabled then s
  else { s with unsubscribeSet := true, hostSubscribed := true }

/-- The cleanup closure returned by `setupVibecraftIntegration` (lines
320–325): `unsubscribeAgentEvents?.()` (optional chaining: a no-op when the
slot is `null`), `unsubscribeAgentEvents = null`, `toolUseStartTime.clear()`.
Each operation is total in JS — none of them can throw. -/
def teardown (s : IntegrationState) : IntegrationState :=
  let s1 := if s.unsubscribeSet then { s with hostSubscribed := false } else s
  { s1 with unsubscribeSet := false, table := [] }

/-- Base fields of a destination event. -/
def baseOf : VibecraftEvent → BaseFields
  | .preToolUse b _ _ _ _ => b
  | .postToolUse b _ _ _ _ _ _ => b
  | .stop b _ _ => b
  | .sessionStart b _ => b
  | .notification b _ _ => b

/-- Transformation of a whole sequence of source events, threading the
correlation table through the calls (each entry carries the event together
with the `Date.now()` and `Math.random()` reads of its call). -/
def processEvents (config : VibecraftAdapterConfig) (table : CorrTable) :
    List (AgentEventPayload × Int × String) → CorrTable
  | [] => table
  | (e, now, rand) :: rest =>
      processEvents config (transformAgentEvent config table e now rand).2 rest

/-!
## Helper lemmas
-/

theorem mapGet_mapSet_self (t : CorrTable) (k : JsValue) (v : Int) :
    mapGet (mapSet t k v) k = some v := by
  induction t with
  | nil => simp [mapSet, mapGet]
  | cons hd rest ih =>
      obtain ⟨k', v'⟩ := hd
      by_cases h : k' = k
      · simp [mapSet, mapGet, h]
      · simp [mapSet, mapGet, h, ih]

theorem mapGet_mapSet_ne (t : CorrTable) (k k' : JsValue) (v : Int)
    (h : k' ≠ k) : mapGet (mapSet t k v) k' = mapGet t k' := by
  induction t with
  | nil => simp [mapSet, mapGet, Ne.symm h]
  | cons hd rest ih =>
      obtain ⟨k0, v0⟩ := hd
      by_cases h0 : k0 = k
      · subst h0
        simp [mapSet, mapGet, Ne.symm h]
      · simp only [mapSet, if_neg h0, mapGet]
        by_cases h1 : k0 = k'
        · simp [h1]
        · simp [h1, ih]

theorem mapGet_mapSet_isSome (t : CorrTable) (k k' : JsValue) (v : Int)
    (h : (mapGet t k').isSome = true) :
    (mapGet (mapSet t k v) k').isSome = true := by
  by_cases hk : k' = k
  · subst hk
    simp [mapGet_mapSet_self]
  · rw [mapGet_mapSet_ne t k k' v hk]
    exact h

/-- The correlation table after one transform call: a pre-phase tool event
records its start time under the resolved tool-use id; every other event
leaves the table untouched. -/
theorem transform_snd_eq (config : VibecraftAdapterConfig) (table : CorrTable)
    (evt : AgentEventPayload) (now : Int) (rand : String) :
    (transformAgentEvent config table evt now rand).2 =
      if evt.stream = "tool" ∧ evt.data.phase = .str "pre" then
        mapSet table (toolUseIdOf (sessionIdOf evt) evt.seq evt.data.toolUseId)
          evt.ts
      else table := by
  simp only [transformAgentEvent]
  split_ifs <;> simp_all

/-- The destination event produced for a post-phase tool event. -/
theorem transform_post_eq (config : VibecraftAdapterConfig) (table : CorrTable)
    (evt : AgentEventPayload) (now : Int) (rand : String)
    (hs : evt.stream = "tool") (hp : evt.data.phase = .str "post") :
    (transformAgentEvent config table evt now rand).1 =
      some (.postToolUse
        { id := s!"{sessionIdOf evt}-{now}-{rand}", timestamp := evt.ts,
          sessionId := sessionIdOf evt, cwd := config.cwd }
        evt.data.toolName (jsOr evt.data.params (.obj []))
        (jsOr evt.data.result (.obj []))
        (toolUseIdOf (sessionIdOf evt) evt.seq evt.data.toolUseId)
        (evt.data.error = .undef)
        (match mapGet table
            (toolUseIdOf (sessionIdOf evt) evt.seq evt.data.toolUseId) with
         | some st => if st ≠ 0 then some (evt.ts - st) else none
         | none => none)) := by
  simp [transformAgentEvent, hs, hp]

/-- A run of events containing no pre-phase tool event resolving to the key
`k` leaves the entry at `k` unchanged. -/
theorem processEvents_preserves (config : VibecraftAdapterConfig)
    (k : JsValue) (events : List (AgentEventPayload × Int × String)) :
    ∀ table : CorrTable,
      (∀ e ∈ events, ¬(e.1.stream = "tool" ∧ e.1.data.phase = .str "pre" ∧
        toolUseIdOf (sessionIdOf e.1) e.1.seq e.1.data.toolUseId = k)) →
      mapGet (processEvents config table events) k = mapGet table k := by
  induction events with
  | nil => intro table _; rfl
  | cons hd rest ih =>
      intro table hno
      obtain ⟨e, now, rand⟩ := hd
      rw [processEvents,
        ih _ (fun x hx => hno x (List.mem_cons_of_mem _ hx)),
        transform_snd_eq]
      split_ifs with h
      · refine mapGet_mapSet_ne _ _ _ _ (fun heq => ?_)
        exact hno (e, now, rand) (List.mem_cons_self _ _)
          ⟨h.1, h.2, heq.symm⟩
      · rfl

/-!
## Claim theorems
-/

/-- C2: for every destination event, dispatch (the network send and the
optional file append) never raises or propagates an exception to its caller,
whatever the fetch outcome (unreachable, non-2xx status, 2000 ms timeout
abort) and whatever the file outcome (e.g. unwritable path): the `try`/`catch`
in each delivery function and the trailing promise `.catch(() => {})` swallow
every error, so the result is always `Except.ok`. -/
theorem dispatch_never_throws (config : VibecraftAdapterConfig)
    (netOutcome : FetchOutcome) (fileOutcome : FileOutcome) :
    (sendToVibecraft config netOutcome).2 = .ok () ∧
    (appendToEventsFile config fileOutcome).2 = .ok () ∧
    (dispatchEvent config netOutcome fileOutcome).2 = .ok () := by
  refine ⟨?_, ?_, rfl⟩ <;>
    simp only [sendToVibecraft, appendToEventsFile, jsCatch] <;>
    split_ifs <;> rfl

/-- C5 counterexample: with `enabled = false` but a configured events-file
path, dispatching an event still performs a file write — the guard in
`appendToEventsFile` tests only `config.eventsFilePath`, never
`config.enabled`, so the claim that both paths are skipped is false. -/
theorem disabled_dispatch_cex :
    (dispatchEvent
      { enabled := false, eventsFilePath := "events.jsonl" }
      (.resolved 200) .resolved).1 = [.fileAppend "events.jsonl"] ∧
    (dispatchEvent
      { enabled := false, eventsFilePath := "events.jsonl" }
      (.resolved 200) .resolved).1 ≠ ([] : List Effect) := by
  exact ⟨rfl, by decide⟩

/-- C5 amended: with `enabled = false`, dispatch performs zero network calls;
it performs zero file writes exactly when no events-file path is configured
(`eventsFilePath` empty, the default), because the file-append guard checks
only the path. -/
theorem disabled_dispatch_effects (config : VibecraftAdapterConfig)
    (netOutcome : FetchOutcome) (fileOutcome : FileOutcome)
    (h : config.enabled = false) :
    (∀ url, Effect.netPost url ∉ (dispatchEvent config netOutcome fileOutcome).1) ∧
    (config.eventsFilePath = "" →
      (dispatchEvent config netOutcome fileOutcome).1 = []) := by
  have hsend : (sendToVibecraft config netOutcome).1 = [] := by
    simp [sendToVibecraft, h]
  constructor
  · intro url hmem
    simp only [dispatchEvent, jsCatch, hsend, List.nil_append] at hmem
    simp only [appendToEventsFile, jsCatch, appendStep] at hmem
    split_ifs at hmem <;> cases fileOutcome <;> simp_all
  · intro hpath
    simp [dispatchEvent, jsCatch, hsend, appendToEventsFile, hpath]

/-- C5 amended, witness: a concrete disabled configuration with no file path
dispatches with no effects at all. -/
theorem disabled_dispatch_effects_wit :
    Effect.netPost "http://localhost:4003/event" ∉
      (dispatchEvent { enabled := false } (.rejected "ECONNREFUSED")
        .resolved).1 ∧
    (dispatchEvent { enabled := false } (.rejected "ECONNREFUSED")
      .resolved).1 = [] := by
  have h := disabled_dispatch_effects { enabled := false }
    (.rejected "ECONNREFUSED") .resolved rfl
  exact ⟨h.1 "http://localhost:4003/event", h.2 rfl⟩

/-- C7: the teardown closure returned by the (enabled) setup call can be
called twice in a row — every operation in it is total (`?.()` on `null` is a
no-op, `Map.clear` on an empty map succeeds), so neither call fails and the
second is a fixed point — and after teardown the correlation table is empty
and the host-stream subscription is cancelled. -/
theorem teardown_idempotent_clears (s : IntegrationState) :
    teardown (teardown (setupVibecraftIntegration true s)) =
      teardown (setupVibecraftIntegration true s) ∧
    (teardown (setupVibecraftIntegration true s)).table = [] ∧
    (teardown (setupVibecraftIntegration true s)).hostSubscribed = false ∧
    (teardown (setupVibecraftIntegration true s)).unsubscribeSet = false ∧
    (teardown (teardown (setupVibecraftIntegration true s))).table = [] ∧
    (teardown (teardown (setupVibecraftIntegration true s))).hostSubscribed
      = false := by
  exact ⟨rfl, rfl, rfl, rfl, rfl, rfl⟩

/-- C8: every source event with `stream = lifecycle` and `phase = start` is
transformed into exactly one SessionStart destination event whose `source`
field is the fixed string "startup". -/
theorem lifecycle_start_sessionStart (config : VibecraftAdapterConfig)
    (table : CorrTable) (evt : AgentEventPayload) (now : Int) (rand : String)
    (hs : evt.stream = "lifecycle") (hp : evt.data.phase = .str "start") :
    (transformAgentEvent config table evt now rand).1 =
      some (.sessionStart
        { id := s!"{sessionIdOf evt}-{now}-{rand}", timestamp := evt.ts,
          sessionId := sessionIdOf evt, cwd := config.cwd } "startup") := by
  simp [transformAgentEvent, hs, hp]

/-- C8 witness: a concrete lifecycle start event. -/
theorem lifecycle_start_sessionStart_wit :
    (transformAgentEvent {} []
      { runId := "r1", stream := "lifecycle", ts := 7,
        data := { phase := .str "start" } } 3 "ab").1 =
      some (.sessionStart
        { id := "r1-3-ab", timestamp := 7, sessionId := "r1", cwd := "/" }
        "startup") := by
  exact lifecycle_start_sessionStart {} []
    { runId := "r1", stream := "lifecycle", ts := 7,
      data := { phase := .str "start" } } 3 "ab" rfl rfl

/-- C9: a well-formed source event whose stream is none of the four
recognized streams, or whose stream is `assistant`, produces no destination
event; the transformer is a total function in the embedding (every branch
returns), so the input is dropped silently rather than raising. -/
theorem unrecognized_stream_no_output (config : VibecraftAdapterConfig)
    (table : CorrTable) (evt : AgentEventPayload) (now : Int) (rand : String)
    (h : (evt.stream ≠ "lifecycle" ∧ evt.stream ≠ "tool" ∧
          evt.stream ≠ "assistant" ∧ evt.stream ≠ "error") ∨
         evt.stream = "assistant") :
    (transformAgentEvent config table evt now rand).1 = none := by
  rcases h with ⟨h1, h2, h3, h4⟩ | h
  · simp [transformAgentEvent, h1, h2, h3, h4]
  · simp [transformAgentEvent, h]

/-- C9 witness: an unrecognized stream and the assistant stream both yield no
output. -/
theorem unrecognized_stream_no_output_wit :
    (transformAgentEvent {} []
      { runId := "r1", stream := "telemetry", ts := 1 } 0 "a").1 = none ∧
    (transformAgentEvent {} []
      { runId := "r1", stream := "assistant", ts := 1 } 0 "a").1 = none :=
  ⟨unrecognized_stream_no_output {} []
      { runId := "r1", stream := "telemetry", ts := 1 } 0 "a"
      (Or.inl (by decide)),
   unrecognized_stream_no_output {} []
      { runId := "r1", stream := "assistant", ts := 1 } 0 "a"
      (Or.inr rfl)⟩

/-- C3: a post-phase tool event whose resolved tool-use id has no start
timestamp in the correlation table produces a ToolPost record whose duration
is absent (`none`), not zero and not an error value. -/
theorem toolPost_no_start_no_duration (config : VibecraftAdapterConfig)
    (table : CorrTable) (evt : AgentEventPayload) (now : Int) (rand : String)
    (hs : evt.stream = "tool") (hp : evt.data.phase = .str "post")
    (hnone : mapGet table
      (toolUseIdOf (sessionIdOf evt) evt.seq evt.data.toolUseId) = none) :
    durationOf (transformAgentEvent config table evt now rand).1 = none := by
  rw [transform_post_eq config table evt now rand hs hp]
  simp [durationOf, hnone]

/-- C3 witness: a post event arriving on an empty correlation table. -/
theorem toolPost_no_start_no_duration_wit :
    durationOf (transformAgentEvent {} []
      { runId := "r1", stream := "tool", ts := 450,
        data := { phase := .str "post", toolUseId := .str "t9" } } 0 "a").1
      = none :=
  toolPost_no_start_no_duration {} []
    { runId := "r1", stream := "tool", ts := 450,
      data := { phase := .str "post", toolUseId := .str "t9" } } 0 "a"
    rfl rfl rfl

/-- C4: the ToolPost record produced for a post-phase tool event has
`success = true` if and only if the event's payload has no `error` field
(the code computes `evt.data.error === undefined`, and an absent field reads
as `undefined`). -/
theorem toolPost_success_iff_no_error (config : VibecraftAdapterConfig)
    (table : CorrTable) (evt : AgentEventPayload) (now : Int) (rand : String)
    (hs : evt.stream = "tool") (hp : evt.data.phase = .str "post") :
    successOf (transformAgentEvent config table evt now rand).1 = some true ↔
      evt.data.error = .undef := by
  rw [transform_post_eq config table evt now rand hs hp]
  simp [successOf]

/-- C4 witness: a post event with no `error` field has `success = true`. -/
theorem toolPost_success_iff_no_error_wit :
    successOf (transformAgentEvent {} []
      { runId := "r1", stream := "tool", ts := 5,
        data := { phase := .str "post", toolUseId := .str "t1" } } 0 "a").1
      = some true :=
  (toolPost_success_iff_no_error {} []
    { runId := "r1", stream := "tool", ts := 5,
      data := { phase := .str "post", toolUseId := .str "t1" } } 0 "a"
    rfl rfl).mpr rfl

/-- C6 counterexample: a source event whose session key is present but empty
(`sessionKey = some ""`) yields a destination event whose session id is the
run id, not the (empty) session key — `evt.sessionKey || evt.runId` tests JS
truthiness, and the empty string is falsy.  The claim "session key when
present, otherwise run id" demands the session id `""` here. -/
theorem sessionId_empty_key_cex :
    (transformAgentEvent {} []
      { runId := "run1", sessionKey := some "", stream := "lifecycle", ts := 1,
        data := { phase := .str "start" } } 0 "a").1 =
      some (.sessionStart
        { id := "run1-0-a", timestamp := 1, sessionId := "run1", cwd := "/" }
        "startup") ∧
    ("run1" : String) ≠ "" := by
  exact ⟨by decide, by decide⟩

/-- C6 amended: the session id of every produced destination event is the
event's session key when that key is present *and non-empty*, and otherwise
the event's run id. -/
theorem sessionId_resolution (config : VibecraftAdapterConfig)
    (table : CorrTable) (evt : AgentEventPayload) (now : Int) (rand : String)
    (ev : VibecraftEvent)
    (h : (transformAgentEvent config table evt now rand).1 = some ev) :
    (baseOf ev).sessionId =
      match evt.sessionKey with
      | some s => if s ≠ "" then s else evt.runId
      | none => evt.runId := by
  have hb : (baseOf ev).sessionId = sessionIdOf evt := by
    simp only [transformAgentEvent] at h
    split_ifs at h <;>
      first
        | exact Option.noConfusion h
        | (injection h with h; subst h; rfl)
  rw [hb]
  rfl

/-- C6 amended, witness: a non-empty session key takes precedence. -/
theorem sessionId_resolution_wit :
    (baseOf (VibecraftEvent.sessionStart
      { id := "k1-0-a", timestamp := 1, sessionId := "k1", cwd := "/" }
      "startup")).sessionId = "k1" := by
  have h := sessionId_resolution {} []
    { runId := "r1", sessionKey := some "k1", stream := "lifecycle", ts := 1,
      data := { phase := .str "start" } } 0 "a"
    (VibecraftEvent.sessionStart
      { id := "k1-0-a", timestamp := 1, sessionId := "k1", cwd := "/" }
      "startup") (by decide)
  simpa using h

/-- C10: only a pre-phase tool event modifies the correlation table — it
inserts (or overwrites) the entry at its resolved tool-use id with the
event's timestamp; every other event leaves the table exactly unchanged, and
no transform call ever removes an entry (every key present before the call is
still present after it). -/
theorem transform_table_frame (config : VibecraftAdapterConfig)
    (table : CorrTable) (evt : AgentEventPayload) (now : Int) (rand : String) :
    (¬(evt.stream = "tool" ∧ evt.data.phase = .str "pre") →
      (transformAgentEvent config table evt now rand).2 = table) ∧
    (evt.stream = "tool" → evt.data.phase = .str "pre" →
      (transformAgentEvent config table evt now rand).2 =
        mapSet table (toolUseIdOf (sessionIdOf evt) evt.seq evt.data.toolUseId)
          evt.ts) ∧
    (∀ k, (mapGet table k).isSome = true →
      (mapGet (transformAgentEvent config table evt now rand).2 k).isSome
        = true) := by
  refine ⟨?_, ?_, ?_⟩
  · intro h
    rw [transform_snd_eq, if_neg h]
  · intro h1 h2
    rw [transform_snd_eq, if_pos ⟨h1, h2⟩]
  · intro k hk
    rw [transform_snd_eq]
    split_ifs
    · exact mapGet_mapSet_isSome _ _ _ _ hk
    · exact hk

/-- C10 witness: a lifecycle event leaves a one-entry table unchanged, and a
pre-phase tool event with a fresh id keeps the existing entry. -/
theorem transform_table_frame_wit :
    (transformAgentEvent {} [(JsValue.str "t1", 5)]
      { runId := "r1", stream := "lifecycle", ts := 9,
        data := { phase := .str "end" } } 0 "a").2
      = [(JsValue.str "t1", 5)] ∧
    (mapGet (transformAgentEvent {} [(JsValue.str "t1", 5)]
      { runId := "r1", stream := "tool", ts := 9,
        data := { phase := .str "pre", toolUseId := .str "t2" } } 0 "a").2
      (JsValue.str "t1")).isSome = true := by
  constructor
  · exact (transform_table_frame {} [(JsValue.str "t1", 5)]
      { runId := "r1", stream := "lifecycle", ts := 9,
        data := { phase := .str "end" } } 0 "a").1 (by decide)
  · exact (transform_table_frame {} [(JsValue.str "t1", 5)]
      { runId := "r1", stream := "tool", ts := 9,
        data := { phase := .str "pre", toolUseId := .str "t2" } } 0 "a").2.2
      (JsValue.str "t1") (by decide)

/-- C1 counterexample: a pre event with timestamp 0 followed by the matching
post event with timestamp 450 yields a ToolPost with *no* duration, not
`450 - 0` — the code computes `startTime ? evt.ts - startTime : undefined`,
and the recorded start time `0` is falsy. -/
theorem toolPost_duration_zero_start_cex :
    durationOf (transformAgentEvent {}
      (transformAgentEvent {} []
        { runId := "r1", stream := "tool", ts := 0,
          data := { phase := .str "pre", toolUseId := .str "t1" } } 0 "a").2
      { runId := "r1", stream := "tool", ts := 450,
        data := { phase := .str "post", toolUseId := .str "t1" } } 0 "a").1
      = none ∧
    durationOf (transformAgentEvent {}
      (transformAgentEvent {} []
        { runId := "r1", stream := "tool", ts := 0,
          data := { phase := .str "pre", toolUseId := .str "t1" } } 0 "a").2
      { runId := "r1", stream := "tool", ts := 450,
        data := { phase := .str "post", toolUseId := .str "t1" } } 0 "a").1
      ≠ some ((450 : Int) - 0) := by
  exact ⟨by decide, by decide⟩

/-- C1 amended: for a pre/post pair resolving to the same tool-use id, where
the pre event's timestamp is nonzero (truthy) and no other pre-phase tool
event with that id is transformed between them, the produced ToolPost's
duration equals `post.ts - pre.ts`. -/
theorem toolPost_duration_eq_post_sub_pre
    (config : VibecraftAdapterConfig) (table : CorrTable)
    (pre post : AgentEventPayload)
    (mids : List (AgentEventPayload × Int × String))
    (n1 n2 : Int) (r1 r2 : String)
    (hpres : pre.stream = "tool") (hprep : pre.data.phase = .str "pre")
    (hposts : post.stream = "tool") (hpostp : post.data.phase = .str "post")
    (hid : toolUseIdOf (sessionIdOf pre) pre.seq pre.data.toolUseId =
           toolUseIdOf (sessionIdOf post) post.seq post.data.toolUseId)
    (hts : pre.ts ≠ 0)
    (hmid : ∀ e ∈ mids, ¬(e.1.stream = "tool" ∧ e.1.data.phase = .str "pre" ∧
      toolUseIdOf (sessionIdOf e.1) e.1.seq e.1.data.toolUseId =
        toolUseIdOf (sessionIdOf post) post.seq post.data.toolUseId)) :
    durationOf (transformAgentEvent config
      (processEvents config (transformAgentEvent config table pre n1 r1).2 mids)
      post n2 r2).1 = some (post.ts - pre.ts) := by
  have h1 : (transformAgentEvent config table pre n1 r1).2 =
      mapSet table
        (toolUseIdOf (sessionIdOf post) post.seq post.data.toolUseId)
        pre.ts := by
    rw [transform_snd_eq, if_pos ⟨hpres, hprep⟩, hid]
  have h2 : mapGet (processEvents config
      (transformAgentEvent config table pre n1 r1).2 mids)
      (toolUseIdOf (sessionIdOf post) post.seq post.data.toolUseId)
      = some pre.ts := by
    rw [processEvents_preserves config _ mids _ hmid, h1, mapGet_mapSet_self]
  rw [transform_post_eq config _ post n2 r2 hposts hpostp, h2]
  simp [durationOf, hts]

/-- C1 amended, witness: the spec's concrete scenario — pre at 1000, post at
1450, same id `t1` — produces duration `1450 - 1000 = 450`. -/
theorem toolPost_duration_eq_post_sub_pre_wit :
    durationOf (transformAgentEvent {}
      (processEvents {}
        (transformAgentEvent {} []
          { runId := "r1", stream := "tool", ts := 1000,
            data := { phase := .str "pre", toolUseId := .str "t1" } } 0 "a").2
        [])
      { runId := "r1", stream := "tool", ts := 1450,
        data := { phase := .str "post", toolUseId := .str "t1" } } 0 "a").1
      = some ((1450 : Int) - 1000) := by
  exact toolPost_duration_eq_post_sub_pre {} []
    { runId := "r1", stream := "tool", ts := 1000,
      data := { phase := .str "pre", toolUseId := .str "t1" } }
    { runId := "r1", stream := "tool", ts := 1450,
      data := { phase := .str "post", toolUseId := .str "t1" } }
    [] 0 0 "a" "a" rfl rfl rfl rfl rfl (by decide) (by simp)
